import Mathlib

/-!
Verification of the CRM lead-generation pipeline (dedup, industry
classification, quality scoring) against its natural-language specification.

The Python sources are shallowly embedded: every definition below is a direct
translation of a function of the repository (file and function named in its
doc comment).  Strings are Lean strings, Python floats are modelled as
exact rationals (the scores involved are small multiples of 1/20, far from
any IEEE rounding boundary; the one place where IEEE rounding is visible is
modelled explicitly and documented), dictionaries are structures with
optional fields, and functions whose Python body is wrapped in try/except
carry an explicit exception parameter at exactly that boundary.
-/

namespace PyStr

/-- Python whitespace class used by str.split / str.strip / the regex class s. -/
def pySpace (c : Char) : Bool :=
  c = ' ' || c = '\t' || c = '\n' || c = '\r' || c = '\x0b' || c = '\x0c'

/-- Python str.strip on a character list. -/
def pyStripL (l : List Char) : List Char :=
  ((l.dropWhile pySpace).reverse.dropWhile pySpace).reverse

/-- Python str.strip. -/
def pyStrip (s : String) : String := (pyStripL s.toList).asString

/-- Python str.lower (inputs here are ASCII). -/
def pyLower (s : String) : String := (s.toList.map Char.toLower).asString

/-- Boolean test that the first list is a prefix of the second. -/
def isPrefixL : List Char → List Char → Bool
  | [], _ => true
  | _ :: _, [] => false
  | a :: as, b :: bs => a = b && isPrefixL as bs

/-- Boolean test that needle occurs as a contiguous substring of hay,
Python needle in hay. -/
def containsL (needle : List Char) : List Char → Bool
  | [] => needle.isEmpty
  | c :: t => isPrefixL needle (c :: t) || containsL needle t

/-- Python containment test on strings: strContains hay needle means
needle in hay. -/
def strContains (hay needle : String) : Bool := containsL needle.toList hay.toList

/-- Worker for str.split: acc holds the current in-progress word reversed.
Structural recursion, so the kernel can evaluate it. -/
def pyWordsAux : List Char → List Char → List (List Char)
  | [], acc => if acc.isEmpty then [] else [acc.reverse]
  | c :: cs, acc =>
    if pySpace c then
      if acc.isEmpty then pyWordsAux cs [] else acc.reverse :: pyWordsAux cs []
    else pyWordsAux cs (c :: acc)

/-- Python str.split with no argument (split on whitespace runs, drop empties). -/
def pyWordsL (l : List Char) : List (List Char) := pyWordsAux l []

/-- Python s.split() on strings. -/
def pyWords (s : String) : List String := (pyWordsL s.toList).map List.asString

/-- Join a list of words with single spaces. -/
def joinSpaceL : List (List Char) → List Char
  | [] => []
  | [w] => w
  | w :: w2 :: ws => w ++ ' ' :: joinSpaceL (w2 :: ws)

/-- Python idiom for whitespace collapsing: join of split. -/
def collapseL (l : List Char) : List Char := joinSpaceL (pyWordsL l)

/-- Fuel-based worker for str.replace(old, new): all occurrences, scanned
left to right, non-overlapping.  Structural in the fuel so that the kernel
can evaluate it; callers pass length + 1 fuel, which always suffices. -/
def replaceAux : Nat → List Char → List Char → List Char → List Char
  | 0, s, _, _ => s
  | fuel + 1, s, old, new =>
    match s with
    | [] => []
    | c :: t =>
      if isPrefixL old (c :: t) && !old.isEmpty then
        new ++ replaceAux fuel ((c :: t).drop old.length) old new
      else
        c :: replaceAux fuel t old new

/-- Python s.replace(old, new) on character lists. -/
def replaceAllL (s old new : List Char) : List Char :=
  replaceAux (s.length + 1) s old new

/-- Python s.replace(old, new) on strings. -/
def pyReplace (s old new : String) : String :=
  (replaceAllL s.toList old.toList new.toList).asString

/-- Truthiness guard used by the completeness loop of the validator:
value and str(value).strip() and value different from NOT_FOUND. -/
def countVal (s : String) : Bool :=
  !(s = "") && !(pyStrip s = "") && !(s = "NOT_FOUND")

/-- The repository's pervasive presence test:
data.get(f) truthy and different from a sentinel. -/
def presentNe (s sentinel : String) : Bool := !(s = "") && !(s = sentinel)

/-- Digit filter, the join of filter(str.isdigit, s). -/
def pyDigits (s : String) : List Char := s.toList.filter Char.isDigit

/-- Worker for Python str.split(sep) with a one-character separator; acc
holds the current segment reversed. -/
def splitOnCharAux (sep : Char) : List Char → List Char → List (List Char)
  | [], acc => [acc.reverse]
  | c :: t, acc =>
    if c = sep then acc.reverse :: splitOnCharAux sep t []
    else splitOnCharAux sep t (c :: acc)

/-- Python s.split(sep) for a one-character separator (keeps empty parts). -/
def splitOnChar (sep : Char) (l : List Char) : List (List Char) :=
  splitOnCharAux sep l []

/-- Every whitespace character is a plain space (verification predicate
for strings in the image of whitespace collapsing). -/
def onlyPlainSpace (l : List Char) : Bool :=
  l.all (fun c => !pySpace c || c = ' ')

/-- No two adjacent whitespace characters. -/
def noDbl : List Char → Bool
  | a :: b :: t => (!(pySpace a && pySpace b)) && noDbl (b :: t)
  | _ => true

/-- The first character, if any, is not whitespace. -/
def headNoSpace : List Char → Bool
  | [] => true
  | c :: _ => !pySpace c

/-- A well-spaced string: single plain spaces between words, none at the
ends.  Exactly the strings fixed by whitespace collapsing. -/
def wellSpacedL (l : List Char) : Bool :=
  onlyPlainSpace l && headNoSpace l && headNoSpace l.reverse && noDbl l

/-- Index of the first occurrence of needle as a substring, if any. -/
def findSubIdx (needle : List Char) : List Char → Option Nat
  | [] => if needle.isEmpty then some 0 else none
  | c :: t =>
    if isPrefixL needle (c :: t) then some 0
    else (findSubIdx needle t).map (· + 1)

end PyStr

open PyStr

namespace Tool

/-- Input dictionary of the classifier tool (keys read with .get(key, empty)),
from src/src/tools/industry_classifier_tool.py. -/
structure BusinessInfo where
  company_name : String := ""
  business_description : String := ""
  industry : String := ""
  category : String := ""
  website_content : String := ""
deriving DecidableEq

/-- Table NAICS_MAPPINGS of src/src/tools/industry_classifier_tool.py, in the
dict's insertion order: (keyword, NAICS code). -/
def NAICS_MAPPINGS : List (String × String) :=
  [("software", "541511"), ("technology", "541511"), ("tech", "541511"),
   ("computer", "541511"), ("it services", "541511"),
   ("web development", "541511"), ("app development", "541511"),
   ("saas", "541511"),
   ("medical", "621111"), ("healthcare", "621111"), ("hospital", "622110"),
   ("clinic", "621111"), ("doctor", "621111"), ("physician", "621111"),
   ("dentist", "621210"), ("pharmacy", "446110"),
   ("retail", "441000"), ("store", "441000"), ("shop", "441000"),
   ("clothing", "448110"), ("grocery", "445110"), ("supermarket", "445110"),
   ("restaurant", "722511"), ("food service", "722511"), ("cafe", "722513"),
   ("bar", "722410"),
   ("consulting", "541611"), ("law", "541110"), ("legal", "541110"),
   ("attorney", "541110"), ("accounting", "541211"), ("cpa", "541211"),
   ("real estate", "531210"), ("insurance", "524210"),
   ("financial", "522110"), ("bank", "522110"),
   ("construction", "236220"), ("building", "236220"),
   ("contractor", "236220"), ("manufacturing", "311000"),
   ("factory", "311000"), ("automotive", "441110"), ("auto repair", "811111"),
   ("transportation", "484110"), ("trucking", "484121"),
   ("logistics", "484110"), ("shipping", "484110"), ("delivery", "492210"),
   ("education", "611110"), ("school", "611110"), ("university", "611310"),
   ("college", "611310"), ("training", "611430"),
   ("entertainment", "711130"), ("fitness", "713940"), ("gym", "713940"),
   ("sports", "713940"), ("hotel", "721110"), ("lodging", "721110"),
   ("agriculture", "111998"), ("farming", "111998"), ("farm", "111998"),
   ("landscaping", "561730"),
   ("energy", "221112"), ("utilities", "221310"), ("solar", "237130"),
   ("renewable", "237130"),
   ("nonprofit", "813211"), ("charity", "813211"), ("foundation", "813211")]

/-- Table NAICS_DESCRIPTIONS of src/src/tools/industry_classifier_tool.py. -/
def NAICS_DESCRIPTIONS : List (String × String) :=
  [("541511", "Custom Computer Programming Services"),
   ("621111", "Offices of Physicians (except Mental Health Specialists)"),
   ("622110", "General Medical and Surgical Hospitals"),
   ("621210", "Offices of Dentists"),
   ("446110", "Pharmacies and Drug Stores"),
   ("441000", "Motor Vehicle and Parts Dealers"),
   ("448110", "Men's Clothing Stores"),
   ("445110", "Supermarkets and Other Grocery (except Convenience) Stores"),
   ("722511", "Full-Service Restaurants"),
   ("722513", "Limited-Service Restaurants"),
   ("722410", "Drinking Places (Alcoholic Beverages)"),
   ("541611",
    "Administrative Management and General Management Consulting Services"),
   ("541110", "Offices of Lawyers"),
   ("541211", "Offices of Certified Public Accountants"),
   ("531210", "Offices of Real Estate Agents and Brokers"),
   ("524210", "Insurance Agencies and Brokerages"),
   ("522110", "Commercial Banking"),
   ("236220", "Commercial and Institutional Building Construction"),
   ("311000", "Food Manufacturing"),
   ("441110", "New Car Dealers"),
   ("811111", "General Automotive Repair"),
   ("484110", "General Freight Trucking, Local"),
   ("484121", "General Freight Trucking, Long-Distance, Truckload"),
   ("492210", "Local Messengers and Local Delivery"),
   ("611110", "Elementary and Secondary Schools"),
   ("611310", "Colleges, Universities, and Professional Schools"),
   ("611430", "Professional and Management Development Training"),
   ("711130", "Musical Groups and Artists"),
   ("713940", "Fitness and Recreational Sports Centers"),
   ("721110", "Hotels (except Casino Hotels) and Motels"),
   ("111998", "All Other Miscellaneous Crop Farming"),
   ("561730", "Landscaping Services"),
   ("221112", "Fossil Fuel Electric Power Generation"),
   ("221310", "Water Supply and Irrigation Systems"),
   ("237130", "Power and Communication Line and Related Structures Construction"),
   ("813211", "Grantmaking Foundations"),
   ("999999", "Unclassified Establishments")]

/-- Dictionary get with a default, on an association list. -/
def lookupD (m : List (String × String)) (k d : String) : String :=
  match m.find? (fun p => p.1 = k) with
  | some p => p.2
  | none => d

/-- Result dictionary of the classifier tool's classify methods. -/
structure ClassifyResult where
  success : Bool
  naics_code : String
  industry_description : String
  confidence_score : Int
  reasoning : String
  source : String
  model : String
deriving DecidableEq

/-- The combined text of the keyword classifier:
space-join of the five text fields, lower-cased. -/
def combinedText (b : BusinessInfo) : String :=
  pyLower (String.intercalate " "
    [b.company_name, b.business_description, b.industry, b.category,
     b.website_content])

/-- Per-keyword score of the keyword classifier: 10 if the keyword occurs in
the combined text, plus 3 for each word of the keyword that occurs. -/
def kwScore (text kw : String) : Nat :=
  (if strContains text kw then 10 else 0) +
    3 * ((pyWords kw).filter (fun w => strContains text w)).length

/-- Dict update keyword_scores[code] = keyword_scores.get(code, 0) + s,
keeping the key's first-insertion position, appending if the key is new. -/
def addScore (m : List (String × Nat)) (code : String) (s : Nat) :
    List (String × Nat) :=
  if m.any (fun p => p.1 = code) then
    m.map (fun p => if p.1 = code then (p.1, p.2 + s) else p)
  else m ++ [(code, s)]

/-- Value associated with a code in the keyword_scores dict, 0 when the
code is absent (keyword_scores.get(code, 0)). -/
def scoreOf (m : List (String × Nat)) (c : String) : Nat :=
  match m.find? (fun q => q.1 = c) with
  | some q => q.2
  | none => 0

/-- The keyword_scores dict after the loop over a keyword table
(insertion-ordered association list; only positive per-keyword scores
are accumulated). -/
def keywordScoresFrom (text : String) (l : List (String × String)) :
    List (String × Nat) :=
  l.foldl (fun m p =>
    let s := kwScore text p.1
    if s > 0 then addScore m p.2 s else m) []

/-- The keyword_scores dict of the keyword classifier. -/
def keywordScores (text : String) : List (String × Nat) :=
  keywordScoresFrom text NAICS_MAPPINGS

/-- Python max(dict, key=dict.get): the first key attaining the maximum
value in iteration order (later entries replace only on strictly greater). -/
def maxEntry : List (String × Nat) → Option (String × Nat)
  | [] => none
  | e :: es => some (es.foldl (fun best x => if x.2 > best.2 then x else best) e)

/-- Error result of the except branch of the keyword classifier. -/
def keywordErrorResult (e : String) : ClassifyResult :=
  { success := false, naics_code := "999999",
    industry_description := "Classification error", confidence_score := 0,
    reasoning := "Keyword classification error: " ++ e,
    source := "error", model := "keyword_matching" }

/-- Fallback result of the keyword classifier when no keyword scored. -/
def noIndicatorResult : ClassifyResult :=
  { success := true, naics_code := "999999",
    industry_description := "Unclassified Establishments",
    confidence_score := 20,
    reasoning := "No clear industry indicators found",
    source := "keyword", model := "keyword_matching" }

/-- Method _classify_with_keywords of IndustryClassifierTool
(src/src/tools/industry_classifier_tool.py).  Its body is one try/except;
kwExc is the exception raised inside the try, if any. -/
def classifyWithKeywords (kwExc : Option String) (b : BusinessInfo) :
    ClassifyResult :=
  match kwExc with
  | some e => keywordErrorResult e
  | none =>
    let text := combinedText b
    match maxEntry (keywordScores text) with
    | some best =>
      { success := true, naics_code := best.1,
        industry_description := lookupD NAICS_DESCRIPTIONS best.1
          "Unknown Industry",
        confidence_score := min ((best.2 : Int) * 5) 85,
        reasoning := "Keyword-based classification (score: " ++
          toString best.2 ++ ")",
        source := "keyword", model := "keyword_matching" }
    | none => noIndicatorResult

end Tool

namespace PyStr

/-- Regex word-character class: alphanumeric or underscore (ASCII inputs). -/
def isWordChar (c : Char) : Bool := c.isAlphanum || c = '_'

end PyStr

namespace Tool

/-- Full-string match against the pattern of six digits anchored at both
ends, used to validate an AI-returned NAICS code. -/
def matchesSixDigits (s : String) : Bool :=
  s.toList.length = 6 && s.toList.all Char.isDigit

/-- Guard of the word-bounded six-digit search at one position: six digits
start here, the previous character (when any) is not a word character, and
the character after the six digits (when any) is not a word character. -/
def sixHere (prev : Option Char) (rest : List Char) : Bool :=
  (rest.take 6).length = 6 && (rest.take 6).all Char.isDigit
    && (match prev with | none => true | some p => !(PyStr.isWordChar p))
    && (match rest.drop 6 with
        | [] => true
        | d :: _ => !(PyStr.isWordChar d))

/-- Worker scanning for the first word-bounded run of six digits
(the search for six digits between word boundaries); prev is the character
before the current position. -/
def findSixAux : Option Char → List Char → Option String
  | _, [] => none
  | prev, c :: t =>
    if sixHere prev (c :: t) then some ((c :: t).take 6).asString
    else findSixAux (some c) t

/-- Leftmost word-bounded six-digit substring, if any. -/
def findSix (s : String) : Option String := findSixAux none s.toList

/-- NAICS-code validation of _classify_with_ai: keep a six-digit code,
otherwise extract a word-bounded six-digit substring, otherwise 999999. -/
def validateNaics (s : String) : String :=
  if matchesSixDigits s then s
  else
    match findSix s with
    | some t => t
    | none => "999999"

/-- The dictionary returned by the external LLM capability
(llm_client.classify_industry); every key is read with a .get default,
so each field is optional. -/
structure AIRaw where
  success : Bool := false
  naics_code : Option String := none
  industry_description : Option String := none
  confidence_score : Option Int := none
  reasoning : Option String := none
  source : Option String := none
  model : Option String := none

/-- Successful branch of _classify_with_ai of IndustryClassifierTool:
validate the code, prefer the local description table, cap confidence at 100,
default the source to "ai". -/
def classifyWithAI (raw : AIRaw) : ClassifyResult :=
  let naics := validateNaics (raw.naics_code.getD "000000")
  let desc :=
    if NAICS_DESCRIPTIONS.any (fun p => p.1 = naics) then
      lookupD NAICS_DESCRIPTIONS naics "Unknown"
    else raw.industry_description.getD "Unknown"
  { success := raw.success, naics_code := naics, industry_description := desc,
    confidence_score := min (raw.confidence_score.getD 0) 100,
    reasoning := raw.reasoning.getD "", source := raw.source.getD "ai",
    model := raw.model.getD "unknown" }

/-- Error result of the except branch of classify (the tool's outermost
exception handler). -/
def classifyErrorResult (e : String) : ClassifyResult :=
  { success := false, naics_code := "999999",
    industry_description := "Classification failed", confidence_score := 0,
    reasoning := "Classification failed: " ++ e,
    source := "error", model := "none" }

/-- Method classify of IndustryClassifierTool.  ai models the presence and
outcome of the LLM capability: none when no llm_client is configured, an
error value when _classify_with_ai caught an exception (it then reports
success = false and classify falls through to the keyword path), and a raw
dictionary otherwise.  exc models an exception raised inside classify's own
try block apart from the modelled calls (for instance in the stats
bookkeeping); kwExc likewise for the keyword method's try block. -/
def classify (exc kwExc : Option String) (ai : Option (Except String AIRaw))
    (b : BusinessInfo) : ClassifyResult :=
  match exc with
  | some e => classifyErrorResult e
  | none =>
    match ai with
    | some (Except.ok raw) =>
      let a := classifyWithAI raw
      if a.success && a.confidence_score > 70 then a
      else classifyWithKeywords kwExc b
    | some (Except.error _) => classifyWithKeywords kwExc b
    | none => classifyWithKeywords kwExc b

/-- Total keyword score a NAICS code receives from a registry on a text:
the sum of the per-keyword scores of the registry entries mapping to it.
This is the specification-side reading of the accumulation loop, compared
with the dict fold in the theorems below. -/
def codeTotal (text : String) (l : List (String × String)) (code : String) :
    Nat :=
  ((l.filter (fun p => p.2 = code)).map (fun p => kwScore text p.1)).sum

end Tool

/-- A business record: the dictionary accumulated across pipeline stages.
String fields are read with .get(key, empty), so an absent key and an empty
value coincide (Python treats both as falsy); fields that the pipeline adds
as new dictionary keys are optional. -/
structure BizRec where
  business_name : String := ""
  business_description : String := ""
  industry : String := ""
  address : String := ""
  phone_number : String := ""
  website : String := ""
  ceo_name : String := ""
  ceo_email : String := ""
  general_email : String := ""
  sales_email : String := ""
  support_email : String := ""
  company_size : String := ""
  service_type : String := ""
  technology_focus : String := ""
  coverage : String := ""
  industry_primary : Option String := none
  naics_code : Option String := none
  industry_confidence : Option Int := none
  industry_category : Option String := none
  classification_method : Option String := none
  industry_secondary : Option String := none
  headquarters_address : Option String := none
  headquarters_city : Option String := none
  headquarters_state : Option String := none
  headquarters_zip : Option String := none
  completeness_score : Option Nat := none
  confidence_score : Option Int := none
  data_quality_score : Option Nat := none
  lead_score : Option Nat := none
  validation_date : Option String := none
  validation_status : Option String := none
deriving DecidableEq

/-- Python truthiness of an optional string value in a dictionary. -/
def optTruthy : Option String → Bool
  | some s => !(s = "")
  | none => false

namespace Proc

/-- Keyword patterns of IndustryClassifier._build_keyword_patterns
(src/src/processors/industry_classifier.py), in dict insertion order;
each entry is (regex source, weight). -/
def keywordPatterns : List (String × List (String × Nat)) :=
  [("Internet Service Provider",
    [("\\bisp\\b", 5), ("internet service", 5), ("broadband", 4),
     ("fiber optic", 4), ("telecommunications", 3), ("cable internet", 4),
     ("wireless internet", 4), ("network provider", 3)]),
   ("Telecommunications",
    [("telecommunications?", 5), ("telecom", 4), ("phone service", 3),
     ("wireless", 3), ("cellular", 3), ("mobile service", 3)]),
   ("Software Development",
    [("software development", 5), ("programming", 4),
     ("application development", 4), ("web development", 4),
     ("mobile app", 3), ("custom software", 4)]),
   ("IT Services",
    [("it services", 5), ("information technology", 4),
     ("computer support", 3), ("network services", 3), ("tech support", 3),
     ("managed services", 4)]),
   ("Medical Practice",
    [("medical", 4), ("physician", 5), ("doctor", 4), ("clinic", 4),
     ("healthcare", 3), ("dental", 4), ("dentist", 5)]),
   ("Legal Services",
    [("law firm", 5), ("attorney", 5), ("lawyer", 5), ("legal services", 5),
     ("paralegal", 3)]),
   ("Real Estate",
    [("real estate", 5), ("realtor", 5), ("property management", 4),
     ("home sales", 3), ("commercial property", 4)]),
   ("Restaurant",
    [("restaurant", 5), ("food service", 4), ("dining", 3), ("cafe", 4),
     ("bistro", 4), ("eatery", 4)]),
   ("Retail",
    [("retail", 4), ("store", 3), ("shop", 3), ("sales", 2),
     ("merchandise", 3)]),
   ("Manufacturing",
    [("manufacturing", 5), ("factory", 4), ("production", 3),
     ("industrial", 3), ("assembly", 3)]),
   ("Construction",
    [("construction", 5), ("contractor", 4), ("building", 3),
     ("renovation", 3), ("remodeling", 3)]),
   ("Consulting",
    [("consulting", 5), ("consultant", 4), ("advisory", 3),
     ("business services", 3)]),
   ("Accounting",
    [("accounting", 5), ("accountant", 5), ("cpa", 5), ("bookkeeping", 4),
     ("tax preparation", 4)]),
   ("Insurance",
    [("insurance", 5), ("coverage", 3), ("policy", 3), ("claims", 3)])]

/-- NAICS codes of IndustryClassifier._build_naics_mapping (industry, code). -/
def naicsMapping : List (String × String) :=
  [("Internet Service Provider", "517311"), ("Telecommunications", "517000"),
   ("Software Development", "541511"), ("IT Services", "541512"),
   ("Computer Services", "541510"), ("Medical Practice", "621111"),
   ("Legal Services", "541110"), ("Accounting", "541211"),
   ("Real Estate", "531210"), ("Insurance", "524210"),
   ("Banking", "522110"), ("Restaurant", "722511"), ("Retail", "441000"),
   ("Manufacturing", "311000"), ("Construction", "236100"),
   ("Consulting", "541611"), ("Marketing Services", "541810"),
   ("Engineering Services", "541330")]

/-- Worker scanning for a word-bounded occurrence of w (for the pattern
backslash-b isp backslash-b); prev is the character before the position. -/
def occursBoundedAux (w : List Char) : Option Char → List Char → Bool
  | _, [] => false
  | prev, c :: t =>
    (isPrefixL w (c :: t)
      && (match prev with | none => true | some p => !(isWordChar p))
      && (match (c :: t).drop w.length with
          | [] => true
          | d :: _ => !(isWordChar d)))
    || occursBoundedAux w (some c) t

/-- Word-bounded occurrence of a word in a text. -/
def occursBounded (w text : String) : Bool :=
  occursBoundedAux w.toList none text.toList

/-- Semantics of re.search for the regexes appearing in keywordPatterns:
all are string literals except the word-bounded isp pattern and the optional
final s of telecommunications? (which matches exactly when the stem occurs).
The text is already lower-cased, so the IGNORECASE flag is inert. -/
def reSearch (pat text : String) : Bool :=
  if pat = "\\bisp\\b" then occursBounded "isp" text
  else if pat = "telecommunications?" then strContains text "telecommunication"
  else strContains text pat

/-- Score and match count of one industry's pattern list on a text. -/
def patScore (text : String) (pats : List (String × Nat)) : Nat × Nat :=
  pats.foldl
    (fun acc p => if reSearch p.1 text then (acc.1 + p.2, acc.2 + 1) else acc)
    (0, 0)

/-- Method _classify_by_keywords of IndustryClassifier: per industry, the
pattern score normalized by the number of patterns; the best strictly
improving industry wins; confidence is min 10 (int (best * 10)).
The normalized score score / len(patterns) is kept as the exact pair
(score, len): for these magnitudes (scores up to about 30, list lengths up
to 8) the Python float comparison normalized > highest and the truncation
int(highest * 10) agree with exact rational arithmetic, so the comparison
is cross-multiplication and the truncation is natural division.
Returns (industry, naics code, confidence). -/
def classifyByKeywords (text : String) : String × String × Int :=
  let best := keywordPatterns.foldl
    (fun (acc : Option String × Nat × Nat) p =>
      let sm := patScore text p.2
      if sm.2 > 0 then
        if sm.1 * acc.2.2 > acc.2.1 * p.2.length then
          (some p.1, sm.1, p.2.length)
        else acc
      else acc)
    (none, 0, 1)
  match best.1 with
  | some industry =>
    (industry, Tool.lookupD naicsMapping industry "UNKNOWN",
     min 10 ((best.2.1 * 10) / best.2.2 : Nat))
  | none => ("Unknown", "UNKNOWN", 1)

/-- Method _find_secondary_industries: industries other than the primary
whose raw pattern score is at least 2, limited to 3. -/
def findSecondary (text primary : String) : List String :=
  ((keywordPatterns.filter (fun p => !(p.1 = primary))).filter
    (fun p => (patScore text p.2).1 ≥ 2)).map (fun p => p.1) |>.take 3

/-- Category table of IndustryClassifier._get_industry_category. -/
def categoriesTable : List (String × List String) :=
  [("Technology",
    ["Software Development", "Internet Service Provider", "Computer Services",
     "IT Services", "Telecommunications", "Data Processing"]),
   ("Healthcare",
    ["Medical Practice", "Healthcare Services", "Pharmaceutical",
     "Medical Equipment", "Dental Services"]),
   ("Financial Services",
    ["Banking", "Insurance", "Investment Services", "Real Estate",
     "Financial Planning", "Accounting"]),
   ("Professional Services",
    ["Legal Services", "Consulting", "Marketing Services",
     "Engineering Services", "Architectural Services"]),
   ("Manufacturing",
    ["Manufacturing", "Construction", "Industrial Services", "Automotive",
     "Aerospace"]),
   ("Retail/Commerce",
    ["Retail", "E-commerce", "Wholesale", "Food Services", "Restaurant",
     "Hospitality"]),
   ("Energy/Utilities",
    ["Utilities", "Energy Services", "Oil and Gas", "Renewable Energy",
     "Environmental Services"])]

/-- Method _get_industry_category: first category whose list contains the
industry, else Other. -/
def getIndustryCategory (industry : String) : String :=
  match categoriesTable.find? (fun p => p.2.contains industry) with
  | some p => p.1
  | none => "Other"

/-- The classification dictionary produced by IndustryClassifier.classify. -/
structure Classification where
  industry_primary : String
  naics_code : String
  industry_confidence : Int
  industry_category : String
  classification_method : String
  industry_secondary : Option String
deriving DecidableEq

/-- Method classify of IndustryClassifier
(src/src/processors/industry_classifier.py): combine name, description and
existing industry, lower-case, keyword-classify, and add secondary
industries when any.  The body's try/except never fires in this pure
translation, so the _default_classification branch is unreachable here. -/
def procClassify (d : BizRec) : Classification :=
  let combined := pyLower
    (d.business_name ++ " " ++ d.business_description ++ " " ++ d.industry)
  let r := classifyByKeywords combined
  let sec := findSecondary combined r.1
  { industry_primary := r.1, naics_code := r.2.1,
    industry_confidence := r.2.2,
    industry_category := getIndustryCategory r.1,
    classification_method := "keyword_matching",
    industry_secondary :=
      if sec.isEmpty then none else some (String.intercalate ", " sec) }

/-- Fallback of IndustryClassifier._default_classification. -/
def defaultClassification : Classification :=
  { industry_primary := "Unknown", naics_code := "UNKNOWN",
    industry_confidence := 1, industry_category := "Other",
    classification_method := "default", industry_secondary := none }

/-- The dict update business.update(industry_info) performed by the caller
(main.py): classification keys overwrite; industry_secondary is only present
in the classification when nonempty, so an absent key leaves the record's
value. -/
def applyClassification (d : BizRec) (c : Classification) : BizRec :=
  { d with industry_primary := some c.industry_primary,
           naics_code := some c.naics_code,
           industry_confidence := some c.industry_confidence,
           industry_category := some c.industry_category,
           classification_method := some c.classification_method,
           industry_secondary :=
             match c.industry_secondary with
             | some s => some s
             | none => d.industry_secondary }

end Proc

namespace Validator

/-- Character class of the local part of the validator's email regex. -/
def emailLocalChar (c : Char) : Bool :=
  c.isAlphanum || c = '.' || c = '_' || c = '%' || c = '+' || c = '-'

/-- Character class of the domain part of the validator's email regex. -/
def emailDomainChar (c : Char) : Bool := c.isAlphanum || c = '.' || c = '-'

/-- Anchored match of the email regex of DataValidator
(src/src/processors/data_validator.py): a nonempty local part, one at-sign,
and a domain that decomposes as a nonempty domain-character part, a dot, and
at least two letters ending the string. -/
def emailMatch (s : String) : Bool :=
  match splitOnChar '@' s.toList with
  | [loc, domain] =>
    !loc.isEmpty && loc.all emailLocalChar &&
    (List.range domain.length).any (fun i =>
      domain.getD i ' ' = '.' && 1 ≤ i && (domain.take i).all emailDomainChar
      && (domain.drop (i + 1)).all Char.isAlpha
      && 2 ≤ (domain.drop (i + 1)).length)
  | _ => false

/-- Anchored match of the canonical phone pattern of DataValidator:
an area code in parentheses, a space, three digits, a dash, four digits. -/
def phonePatternMatch (s : String) : Bool :=
  match s.toList with
  | ['(', a, b, c, ')', ' ', d, e, f, '-', g, h, i, j] =>
    [a, b, c, d, e, f, g, h, i, j].all Char.isDigit
  | _ => false

/-- Start-anchored match of the URL pattern of DataValidator: an http or
https scheme, then at least one character, a dot, and at least one more
character (the regex dot excludes newlines; the match need not span the
whole string). -/
def urlPatternMatch (s : String) : Bool :=
  let check : List Char → Bool := fun rest =>
    (List.range rest.length).any (fun i =>
      rest.getD i ' ' = '.' && 1 ≤ i
      && (rest.take i).all (fun c => !(c = '\n'))
      && i + 1 < rest.length && !(rest.getD (i + 1) ' ' = '\n'))
  if isPrefixL "https://".toList s.toList then check (s.toList.drop 8)
  else if isPrefixL "http://".toList s.toList then check (s.toList.drop 7)
  else false

/-- Canonical phone format of DataValidator._validate_phone on ten digits. -/
def formatPhone (d : List Char) : String :=
  ("(".toList ++ d.take 3 ++ [')', ' '] ++ (d.drop 3).take 3 ++ ['-']
    ++ d.drop 6).asString

/-- Method _validate_phone of DataValidator: standardize to the canonical
format when the digits form a ten-digit number or an eleven-digit number
with leading one, else return the original. -/
def validatePhone (phone : String) : String :=
  if phone = "" || phone = "NOT_FOUND" then "NOT_FOUND"
  else
    let digits := pyDigits phone
    if digits.length = 10 then
      let f := formatPhone digits
      if phonePatternMatch f then f else phone
    else if digits.length = 11 && digits.headD ' ' = '1' then
      let f := formatPhone (digits.drop 1)
      if phonePatternMatch f then f else phone
    else phone

/-- Method _validate_email of DataValidator: strip, lower, and either keep a
matching address or return the INVALID_EMAIL marker. -/
def validateEmail (email : String) : String :=
  if email = "" || email = "NOT_FOUND" then "NOT_FOUND"
  else
    let e := pyLower (pyStrip email)
    if emailMatch e then e else "INVALID_EMAIL"

/-- Method _validate_website of DataValidator: strip, prepend https when no
protocol is given, and either keep a pattern-matching URL or return the
INVALID_URL marker. -/
def validateWebsite (w : String) : String :=
  if w = "" || w = "NOT_FOUND" then "NOT_FOUND"
  else
    let w1 := pyStrip w
    let w2 :=
      if isPrefixL "http://".toList w1.toList
          || isPrefixL "https://".toList w1.toList then w1
      else "https://" ++ w1
    if urlPatternMatch w2 then w2 else "INVALID_URL"

/-- Suffix standardization table of DataValidator._clean_business_name: for
each dict entry the code replaces the lower-case key and then its
title-cased form (str.title of the key), both by the standardized value. -/
def suffixPairs : List (String × String) :=
  [(" inc.", " Inc."), (" Inc.", " Inc."),
   (" llc", " LLC"), (" Llc", " LLC"),
   (" corp.", " Corp."), (" Corp.", " Corp."),
   (" ltd.", " Ltd."), (" Ltd.", " Ltd."),
   (" co.", " Co."), (" Co.", " Co.")]

/-- Method _clean_business_name of DataValidator: collapse whitespace, then
standardize the common business suffixes. -/
def cleanBusinessName (name : String) : String :=
  suffixPairs.foldl (fun s p => pyReplace s p.1 p.2)
    (collapseL name.toList).asString

/-- Method _clean_description of DataValidator: collapse whitespace and
truncate over-long text to 497 characters plus an ellipsis. -/
def cleanDescription (d : String) : String :=
  let c := collapseL d.toList
  if c.length > 500 then (c.take 497).asString ++ "..." else c.asString

/-- The component dictionary returned by DataValidator._parse_address. -/
structure ParsedAddress where
  headquarters_address : Option String := none
  headquarters_city : Option String := none
  headquarters_state : Option String := none
  headquarters_zip : Option String := none

/-- Worker for the search for two capitals, whitespace, five digits inside
_parse_address: scan left to right; at each position require two upper-case
letters, at least one whitespace character, then five digits. -/
def stateZipAux : List Char → Option (String × String)
  | [] => none
  | c :: t =>
    let l := c :: t
    let afterTwo := l.drop 2
    let spaces := afterTwo.takeWhile pySpace
    let afterSp := afterTwo.dropWhile pySpace
    if ((l.take 2).length = 2 && (l.take 2).all Char.isUpper
        && !spaces.isEmpty && (afterSp.take 5).length = 5
        && (afterSp.take 5).all Char.isDigit) then
      some ((l.take 2).asString, (afterSp.take 5).asString)
    else stateZipAux t

/-- Method _parse_address of DataValidator: keep the address, and extract
city (second-to-last comma part) and state and zip (regex search on the
last part) when the address has at least two comma-separated parts. -/
def parseAddress (address : String) : ParsedAddress :=
  if !(address = "") && !(address = "NOT_FOUND") then
    let parts := (splitOnChar ',' address.toList).map List.asString
    if parts.length ≥ 2 then
      let city := pyStrip (parts.getD (parts.length - 2) "")
      let lastPart := pyStrip (parts.getLastD "")
      match stateZipAux lastPart.toList with
      | some sz =>
        { headquarters_address := some address,
          headquarters_city := some city,
          headquarters_state := some sz.1, headquarters_zip := some sz.2 }
      | none =>
        { headquarters_address := some address,
          headquarters_city := some city }
    else { headquarters_address := some address }
  else {}

/-- The dict update validated.update(parsed): only present keys overwrite. -/
def applyParsed (d : BizRec) (p : ParsedAddress) : BizRec :=
  { d with
    headquarters_address := p.headquarters_address.elim
      d.headquarters_address some,
    headquarters_city := p.headquarters_city.elim d.headquarters_city some,
    headquarters_state := p.headquarters_state.elim
      d.headquarters_state some,
    headquarters_zip := p.headquarters_zip.elim d.headquarters_zip some }

/-- Method _validate_core_fields of DataValidator: clean the business name
(UNKNOWN when blank), parse a nonblank address, clean a nonblank
description.  The source performs three sequential updates of distinct
keys, each reading only its own field, so they are written here as one
simultaneous update. -/
def validateCore (d : BizRec) : BizRec :=
  let p := if !(pyStrip d.address = "") then parseAddress (pyStrip d.address)
           else {}
  { d with
    business_name :=
      if !(pyStrip d.business_name = "") then
        cleanBusinessName (pyStrip d.business_name)
      else "UNKNOWN",
    business_description :=
      if !(pyStrip d.business_description = "") then
        cleanDescription (pyStrip d.business_description)
      else d.business_description,
    headquarters_address := p.headquarters_address.elim
      d.headquarters_address some,
    headquarters_city := p.headquarters_city.elim d.headquarters_city some,
    headquarters_state := p.headquarters_state.elim
      d.headquarters_state some,
    headquarters_zip := p.headquarters_zip.elim d.headquarters_zip some }

/-- Method _validate_contact_info of DataValidator: standardize the phone,
the four email fields and the website when present and not the sentinel.
The source's sequential updates touch distinct keys, each reading only its
own field, so they are written as one simultaneous update. -/
def validateContact (d : BizRec) : BizRec :=
  { d with
    phone_number :=
      if presentNe d.phone_number "NOT_FOUND" then
        validatePhone d.phone_number
      else d.phone_number,
    ceo_email :=
      if presentNe d.ceo_email "NOT_FOUND" then validateEmail d.ceo_email
      else d.ceo_email,
    general_email :=
      if presentNe d.general_email "NOT_FOUND" then
        validateEmail d.general_email
      else d.general_email,
    sales_email :=
      if presentNe d.sales_email "NOT_FOUND" then validateEmail d.sales_email
      else d.sales_email,
    support_email :=
      if presentNe d.support_email "NOT_FOUND" then
        validateEmail d.support_email
      else d.support_email,
    website :=
      if presentNe d.website "NOT_FOUND" then validateWebsite d.website
      else d.website }

/-- Count of truthy non-sentinel values among the record's dictionary
values (the generator inside _calculate_quality_scores). -/
def completedFields (d : BizRec) : Nat :=
  let cs : String → Nat := fun s => if countVal s then 1 else 0
  let co : Option String → Nat := fun o => (o.map cs).getD 0
  let cn : Option Nat → Nat := fun o =>
    match o with | some v => if v = 0 then 0 else 1 | none => 0
  let ci : Option Int → Nat := fun o =>
    match o with | some v => if v = 0 then 0 else 1 | none => 0
  cs d.business_name + cs d.business_description + cs d.industry +
  cs d.address + cs d.phone_number + cs d.website + cs d.ceo_name +
  cs d.ceo_email + cs d.general_email + cs d.sales_email +
  cs d.support_email + cs d.company_size + cs d.service_type +
  cs d.technology_focus + cs d.coverage +
  co d.industry_primary + co d.naics_code + ci d.industry_confidence +
  co d.industry_category + co d.classification_method +
  co d.industry_secondary + co d.headquarters_address +
  co d.headquarters_city + co d.headquarters_state + co d.headquarters_zip +
  cn d.completeness_score + ci d.confidence_score + cn d.data_quality_score +
  cn d.lead_score + co d.validation_date + co d.validation_status

/-- Python int((completed / 50) * 100) under IEEE double semantics.  The
double product rounds just below the exact integer for completed = 29, 57
and 58 (for instance (29/50)*100 = 57.99999999999999), and agrees with exact
arithmetic for every other value up to the 31 fields a record here can
have; truncation then loses one. -/
def pyCompletenessRaw (c : Nat) : Nat :=
  if c = 29 || c = 57 || c = 58 then 2 * c - 1 else 2 * c

/-- The completeness score: min 100 of the truncated percentage. -/
def completenessOf (c : Nat) : Nat := min 100 (pyCompletenessRaw c)

/-- Method _calculate_confidence_score of DataValidator: start at 10, deduct
for missing name, phone, address, website, add for CEO name and email, and
clamp to 1..10. -/
def calcConfidence (d : BizRec) : Int :=
  max 1 (min 10 (10
    - (if d.business_name = "" || d.business_name = "UNKNOWN" then 3 else 0)
    - (if d.phone_number = "" || d.phone_number = "NOT_FOUND" then 2 else 0)
    - (if d.address = "" || d.address = "NOT_FOUND" then 2 else 0)
    - (if d.website = "" || d.website = "NOT_FOUND" then 1 else 0)
    + (if presentNe d.ceo_name "NOT_FOUND" then 1 else 0)
    + (if presentNe d.ceo_email "NOT_FOUND" then 1 else 0)))

/-- Method _calculate_overall_quality_score of DataValidator: presence-based
points (name not UNKNOWN 2, description 1, industry 1, phone 1, address 1,
website 1, CEO name 1, CEO email 1, general email 1), capped at 10. -/
def calcQuality (d : BizRec) : Nat :=
  min 10 ((if presentNe d.business_name "UNKNOWN" then 2 else 0)
    + (if !(d.business_description = "") then 1 else 0)
    + (if !(d.industry = "") || optTruthy d.industry_primary then 1 else 0)
    + (if presentNe d.phone_number "NOT_FOUND" then 1 else 0)
    + (if presentNe d.address "NOT_FOUND" then 1 else 0)
    + (if presentNe d.website "NOT_FOUND" then 1 else 0)
    + (if presentNe d.ceo_name "NOT_FOUND" then 1 else 0)
    + (if presentNe d.ceo_email "NOT_FOUND" then 1 else 0)
    + (if presentNe d.general_email "NOT_FOUND" then 1 else 0))

/-- Method _calculate_lead_score of DataValidator: base 5, plus company
size, service or technology focus, CEO email 2 else general email 1, and
website, capped at 10. -/
def calcLead (d : BizRec) : Nat :=
  min 10 (5 + (if !(d.company_size = "") then 1 else 0)
    + (if !(d.service_type = "") || !(d.technology_focus = "") then 1 else 0)
    + (if presentNe d.ceo_email "NOT_FOUND" then 2
       else if presentNe d.general_email "NOT_FOUND" then 1 else 0)
    + (if presentNe d.website "NOT_FOUND" then 1 else 0))

/-- Method _calculate_quality_scores of DataValidator: all four scores are
computed from the incoming record (not from one another) and then stored. -/
def calcScores (d : BizRec) : BizRec :=
  { d with completeness_score := some (completenessOf (completedFields d)),
           confidence_score := some (calcConfidence d),
           data_quality_score := some (calcQuality d),
           lead_score := some (calcLead d) }

/-- Method _add_validation_metadata of DataValidator: store the validation
timestamp (an external input here) and a status derived from the quality
score. -/
def addMeta (ts : String) (d : BizRec) : BizRec :=
  let q := d.data_quality_score.getD 0
  let status :=
    if q ≥ 8 then "high_quality"
    else if q ≥ 6 then "good_quality"
    else if q ≥ 4 then "acceptable_quality"
    else "needs_review"
  { d with validation_date := some ts, validation_status := some status }

/-- Method validate_and_enhance of DataValidator: core fields, contact
fields, scores, metadata.  The outer try/except never fires in this pure
translation. -/
def validateAndEnhance (ts : String) (d : BizRec) : BizRec :=
  addMeta ts (calcScores (validateContact (validateCore d)))

end Validator

/-- One round of the classify-then-validate pipeline as composed by the
caller (main.py): update the record with the classification, then validate
and enhance. -/
def classifyValidate (ts : String) (d : BizRec) : BizRec :=
  Validator.validateAndEnhance ts
    (Proc.applyClassification d (Proc.procClassify d))

namespace Agent

/-- Key derivation of CRMLeadAgent._deduplicate_businesses
(src/src/agents/crm_lead_agent.py): the stripped phone number when nonempty,
else the lower-cased stripped business name. -/
def dedupKey (b : BizRec) : String :=
  let name := pyStrip (pyLower b.business_name)
  let phone := pyStrip b.phone_number
  if !(phone = "") then phone else name

/-- Loop of CRMLeadAgent._deduplicate_businesses: keep a record when its key
is nonempty and unseen; the seen set grows with each kept record. -/
def dedupAux (seen : List String) : List BizRec → List BizRec
  | [] => []
  | b :: rest =>
    let key := dedupKey b
    if !(key = "") && !(seen.contains key) then
      b :: dedupAux (key :: seen) rest
    else dedupAux seen rest

/-- Method _deduplicate_businesses of CRMLeadAgent. -/
def deduplicate (l : List BizRec) : List BizRec := dedupAux [] l

/-- Normalization the specification prescribes for the dedup key: the phone
number reduced to its digits.  Stated from the specification's words in
order to compare it with what the code actually does. -/
def specPhoneKey (b : BizRec) : String := (pyDigits b.phone_number).asString

/-- Normalization the specification prescribes for the name fallback:
lower-cased, trimmed, punctuation stripped and whitespace collapsed.
Stated from the specification's words for comparison with the code. -/
def specNameKey (b : BizRec) : String :=
  (collapseL (((pyStrip (pyLower b.business_name)).toList).filter
    (fun c => isWordChar c || pySpace c))).asString

end Agent

namespace Scraper

/-- Name normalization of ISPScraper._deduplicate_businesses
(src/src/scrapers/isp_scraper.py): lower, strip, then drop every character
that is neither a word character nor whitespace. -/
def normalizeName (b : BizRec) : String :=
  ((pyStrip (pyLower b.business_name)).toList.filter
    (fun c => isWordChar c || pySpace c)).asString

/-- The word set of a normalized name: set(name.split()). -/
def wordSet (n : String) : Finset String := (pyWords n).toFinset

/-- Fuzzy duplicate test of ISPScraper._deduplicate_businesses: overlap of
at least two words, and overlap ratio above 0.6 relative to either name.
Python's float 0.6 literal compares like the exact 3/5 for these word
counts, so the ratio test overlap / card > 0.6 is written multiplicatively
as 5 * overlap > 3 * card; the conjunction short-circuits, and overlap is
at most either card, so the Python division never sees a zero denominator. -/
def fuzzyDup (nameW seenW : Finset String) : Bool :=
  let overlap := (nameW ∩ seenW).card
  decide (2 ≤ overlap) &&
    (decide (5 * overlap > 3 * nameW.card)
     || decide (5 * overlap > 3 * seenW.card))

/-- Loop of ISPScraper._deduplicate_businesses: a record is dropped when its
normalized name fuzzily matches any previously kept normalized name. -/
def scraperDedupAux (seen : List String) : List BizRec → List BizRec
  | [] => []
  | b :: rest =>
    let nn := normalizeName b
    if seen.any (fun sn => fuzzyDup (wordSet nn) (wordSet sn)) then
      scraperDedupAux seen rest
    else b :: scraperDedupAux (nn :: seen) rest

/-- Method _deduplicate_businesses of ISPScraper (empty input returns
immediately; the seen names are a set, modelled as the list of kept
normalized names, over which only membership-like queries are made). -/
def scraperDedup (l : List BizRec) : List BizRec :=
  if l.isEmpty then [] else scraperDedupAux [] l

end Scraper

namespace IspNc

/-- One optional character of the ISP phone regex. -/
def eatOpt (cs : List Char) (p : Char → Bool) : List Char :=
  match cs with
  | c :: t => if p c then t else cs
  | [] => []

/-- A mandatory run of n digits of the ISP phone regex. -/
def eatDigits (cs : List Char) (n : Nat) : Option (List Char) :=
  if (cs.take n).length = n && (cs.take n).all Char.isDigit then
    some (cs.drop n)
  else none

/-- Method ISPDataValidator._validate_phone (src/scripts/run_isp_nc.py):
anchored match of an optional opening parenthesis, three digits, an optional
closing parenthesis, an optional separator, three digits, an optional
separator, and four digits ending the stripped string.  Each optional
element is forced exactly when its character is present (no digit belongs to
any optional class), so this deterministic scan is the regex's semantics. -/
def ispValidatePhone (phone : String) : Bool :=
  if phone = "" then false
  else
    let l := (pyStrip phone).toList
    let l := eatOpt l (fun c => c = '(')
    match eatDigits l 3 with
    | none => false
    | some l =>
      let l := eatOpt l (fun c => c = ')')
      let l := eatOpt l (fun c => c = '-' || c = '.' || c = ' ')
      match eatDigits l 3 with
      | none => false
      | some l =>
        let l := eatOpt l (fun c => c = '-' || c = '.' || c = ' ')
        match eatDigits l 4 with
        | none => false
        | some l => l.isEmpty

/-- Characters Python's urlparse accepts in a scheme. -/
def schemeChar (c : Char) : Bool :=
  c.isAlphanum || c = '+' || c = '-' || c = '.'

/-- Method ISPDataValidator._validate_website.  Modelled from the spec: the
code calls Python's urlparse (standard library, not part of this
repository) and requires a non-empty scheme and netloc; per the
specification a website is valid iff it parses as an absolute URL with
non-empty scheme and host, that is, scheme characters before a
scheme separator and a non-empty host segment after it. -/
def ispValidateWebsite (w : String) : Bool :=
  if w = "" then false
  else
    match findSubIdx "://".toList w.toList with
    | none => false
    | some i =>
      let sch := w.toList.take i
      let rest := w.toList.drop (i + 3)
      !sch.isEmpty && sch.all schemeChar &&
      !(rest.takeWhile (fun c => !(c = '/' || c = '?' || c = '#'))).isEmpty

/-- The dictionary returned by ISPDataValidator.validate. -/
structure IspValidation where
  quality_score : ℚ
  phone_valid : Bool
  website_valid : Bool
  validation_flags : List String
deriving DecidableEq

/-- Python round to the nearest integer, ties to even (banker's rounding). -/
def roundHalfEven (q : ℚ) : ℤ :=
  if q - ⌊q⌋ < 1 / 2 then ⌊q⌋
  else if q - ⌊q⌋ > 1 / 2 then ⌊q⌋ + 1
  else if 2 ∣ ⌊q⌋ then ⌊q⌋ else ⌊q⌋ + 1

/-- Python round(x, 2).  Every score reached here is a multiple of 1/20, so
the scaled value is an integer and no tie-breaking or IEEE effect is
observable. -/
def pyRound2 (q : ℚ) : ℚ := (roundHalfEven (q * 100) : ℚ) / 100

/-- Method validate of ISPDataValidator (src/scripts/run_isp_nc.py): weight
0.25 for the name, 0.15 for the address, 0.20 plus 0.05 for the phone, 0.15
plus 0.05 for the website, 0.15 for the description, 0.05 each for service
type and coverage; flags record what is missing or ill-formed. -/
def ispValidate (b : BizRec) : IspValidation :=
  { quality_score := pyRound2
      ((if !(b.business_name = "") then (0.25 : ℚ) else 0)
        + (if !(b.address = "") then 0.15 else 0)
        + (if !(b.phone_number = "") then
             0.20 + (if ispValidatePhone b.phone_number then 0.05 else 0)
           else 0)
        + (if !(b.website = "") then
             0.15 + (if ispValidateWebsite b.website then 0.05 else 0)
           else 0)
        + (if !(b.business_description = "") then 0.15 else 0)
        + (if !(b.service_type = "") then 0.05 else 0)
        + (if !(b.coverage = "") then 0.05 else 0)),
    phone_valid := ispValidatePhone b.phone_number,
    website_valid := ispValidateWebsite b.website,
    validation_flags :=
      (if !(b.business_name = "") then [] else ["missing_business_name"])
      ++ (if !(b.address = "") then [] else ["missing_address"])
      ++ (if !(b.phone_number = "") then
            if ispValidatePhone b.phone_number then []
            else ["invalid_phone_format"]
          else ["missing_phone"])
      ++ (if !(b.website = "") then
            if ispValidateWebsite b.website then []
            else ["invalid_website_format"]
          else ["missing_website"])
      ++ (if !(b.business_description = "") then []
          else ["missing_description"]) }

/-- Keyword list of ISPClassifier (src/scripts/run_isp_nc.py). -/
def ispKeywords : List String :=
  ["internet service provider", "isp", "broadband", "internet",
   "telecommunications", "telecom", "fiber", "cable internet",
   "wireless internet", "satellite internet", "dsl", "high-speed internet"]

/-- Method ISPClassifier._calculate_confidence: 30 points for direct ISP
phrases, 20 for generic broadband or internet, 10 for other keywords, a 15
point telecom bonus, a 10 point service-type bonus, capped at 100. -/
def ispCalcConfidence (name desc : String) : Int :=
  let combined := name ++ " " ++ desc
  let s : Int := ispKeywords.foldl
    (fun s kw =>
      if strContains combined kw then
        if kw = "internet service provider" || kw = "isp" then s + 30
        else if kw = "broadband" || kw = "internet" then s + 20
        else s + 10
      else s) 0
  let s := if strContains combined "telecommunications"
              || strContains combined "telecom" then s + 15 else s
  let s := if strContains combined "fiber" || strContains combined "cable"
              || strContains combined "satellite"
              || strContains combined "dsl" then s + 10 else s
  min s 100

/-- Method ISPClassifier._determine_isp_type. -/
def determineIspType (name desc st : String) : String :=
  let combined := name ++ " " ++ desc ++ " " ++ st
  if strContains combined "fiber" || strContains combined "fibre" then "Fiber"
  else if strContains combined "cable" || strContains combined "coax" then
    "Cable"
  else if strContains combined "satellite" then "Satellite"
  else if strContains combined "dsl"
          || strContains combined "digital subscriber" then "DSL"
  else if strContains combined "wireless" || strContains combined "radio" then
    "Wireless"
  else "Mixed/Other"

/-- The dictionary returned by ISPClassifier.classify. -/
structure IspClassification where
  naics_code : String
  industry_category : String
  industry_description : String
  isp_type : String
  confidence_score : Int
  classification_method : String
deriving DecidableEq

/-- Method classify of ISPClassifier: always code 517311 with a keyword
confidence computed on the lower-cased name and description. -/
def ispClassify (b : BizRec) : IspClassification :=
  let name := pyLower b.business_name
  let desc := pyLower b.business_description
  let st := pyLower b.service_type
  { naics_code := "517311", industry_category := "Telecommunications",
    industry_description := "Internet Service Providers",
    isp_type := determineIspType name desc st,
    confidence_score := ispCalcConfidence name desc,
    classification_method := "keyword_matching" }

end IspNc

namespace Validator

/-- Phone validity as the specification states it: the digits form a
ten-digit number, or an eleven-digit number with leading one (exactly the
condition under which _validate_phone standardizes). -/
def specPhoneValid (phone : String) : Bool :=
  let digits := pyDigits phone
  digits.length = 10 || (digits.length = 11 && digits.headD ' ' = '1')

/-- Address validity as the specification states it (and as
DataValidatorTool._validate_address implements it): stripped length over
ten and at least one digit. -/
def specAddressValid (address : String) : Bool :=
  !(address = "") && 10 < (pyStripL address.toList).length
    && address.toList.any Char.isDigit

/-- Website validity as the forms used elsewhere in the validator: the
https-prepended value matches the URL pattern. -/
def specWebsiteValid (w : String) : Bool :=
  if w = "" then false
  else
    let w1 := pyStrip w
    let w2 :=
      if isPrefixL "http://".toList w1.toList
          || isPrefixL "https://".toList w1.toList then w1
      else "https://" ++ w1
    urlPatternMatch w2

/-- The business-path data_quality_score as the specification's point table
reads, awarding the phone, address and website points only to valid values.
Stated from the specification's words for comparison with calcQuality. -/
def specQuality (d : BizRec) : Nat :=
  min 10 ((if presentNe d.business_name "UNKNOWN" then 2 else 0)
    + (if !(d.business_description = "") then 1 else 0)
    + (if !(d.industry = "") || optTruthy d.industry_primary then 1 else 0)
    + (if specPhoneValid d.phone_number then 1 else 0)
    + (if specAddressValid d.address then 1 else 0)
    + (if specWebsiteValid d.website then 1 else 0)
    + (if presentNe d.ceo_name "NOT_FOUND" then 1 else 0)
    + (if presentNe d.ceo_email "NOT_FOUND" then 1 else 0)
    + (if presentNe d.general_email "NOT_FOUND" then 1 else 0))

end Validator

/-! ## Theorems -/

section Helpers

/-- The dedup loop of CRMLeadAgent returns a sublist of its input. -/
theorem agent_dedupAux_sublist (seen : List String) (l : List BizRec) :
    (Agent.dedupAux seen l).Sublist l := by
  induction l generalizing seen with
  | nil => simp [Agent.dedupAux]
  | cons b rest ih =>
    simp only [Agent.dedupAux]
    split
    · exact (ih _).cons₂ b
    · exact (ih _).cons b

/-- The fuzzy dedup loop of ISPScraper returns a sublist of its input. -/
theorem scraper_dedupAux_sublist (seen : List String) (l : List BizRec) :
    (Scraper.scraperDedupAux seen l).Sublist l := by
  induction l generalizing seen with
  | nil => simp [Scraper.scraperDedupAux]
  | cons b rest ih =>
    simp only [Scraper.scraperDedupAux]
    split
    · exact (ih _).cons b
    · exact (ih _).cons₂ b

/-- Rounding to two decimals is the identity on hundredths. -/
theorem pyRound2_natCast_div (n : ℕ) :
    IspNc.pyRound2 ((n : ℚ) / 100) = (n : ℚ) / 100 := by
  unfold IspNc.pyRound2 IspNc.roundHalfEven
  rw [div_mul_cancel₀ _ (by norm_num : (100 : ℚ) ≠ 0)]
  norm_num

end Helpers

/-- C10: the lead score starts from a base of 5 and is only incremented
before the cap at 10, so for every record it lies in the interval 5..10 —
in particular never below 5, a strictly tighter lower bound than the 0..10
range. -/
theorem c10_lead_score_bounds (d : BizRec) :
    5 ≤ Validator.calcLead d ∧ Validator.calcLead d ≤ 10 := by
  unfold Validator.calcLead
  split_ifs <;> omega

/-- C10 witness at a concrete record. -/
theorem c10_lead_score_bounds_witness :
    5 ≤ Validator.calcLead { business_name := "Acme" } ∧
      Validator.calcLead { business_name := "Acme" } ≤ 10 :=
  c10_lead_score_bounds { business_name := "Acme" }

/-- C6 counterexample: for the record with name Acme and phone 123, the code
awards the phone point for mere presence and scores 3, while the
specification's table (phone point only for a valid phone: ten digits, or
eleven with leading one) yields 2 — so the business-path
data_quality_score is not the sum of the specification's stated
allocations. -/
theorem c6_quality_counterexample :
    Validator.calcQuality
        { business_name := "Acme", phone_number := "123" } = 3 ∧
      Validator.specQuality
        { business_name := "Acme", phone_number := "123" } = 2 ∧
      Validator.specPhoneValid "123" = false := by
  decide

/-- C6 amended: the business-path data_quality_score is the sum of the
stated point allocations with the phone, address and website points awarded
for presence of a non-sentinel value rather than validity, capped at 10 and
never above 10; in particular replacing a present phone value by any other
present value (valid or not) leaves the score unchanged. -/
theorem c6_quality_amended :
    (∀ d : BizRec, Validator.calcQuality d ≤ 10) ∧
    (∀ ts : String, ∀ d : BizRec,
      (Validator.validateAndEnhance ts d).data_quality_score =
        some (Validator.calcQuality
          (Validator.validateContact (Validator.validateCore d)))) ∧
    (∀ d : BizRec, ∀ p1 p2 : String,
      presentNe p1 "NOT_FOUND" = true → presentNe p2 "NOT_FOUND" = true →
      Validator.calcQuality { d with phone_number := p1 } =
        Validator.calcQuality { d with phone_number := p2 }) := by
  refine ⟨fun d => ?_, fun ts d => rfl, fun d p1 p2 h1 h2 => ?_⟩
  · unfold Validator.calcQuality
    split_ifs <;> omega
  · unfold Validator.calcQuality
    simp only [h1, h2]

/-- C6 witness for the amended statement: a syntactically invalid phone and
a canonical one produce the same quality score. -/
theorem c6_quality_amended_witness :
    (presentNe "abc" "NOT_FOUND" = true ∧
      presentNe "(555) 123-4567" "NOT_FOUND" = true) ∧
    Validator.calcQuality
        { business_name := "Acme", phone_number := "abc" } =
      Validator.calcQuality
        { business_name := "Acme", phone_number := "(555) 123-4567" } :=
  ⟨by decide,
    c6_quality_amended.2.2 { business_name := "Acme" } "abc" "(555) 123-4567"
      (by decide) (by decide)⟩


/-- C7 counterexample: a fully populated record with well-formed phone and
website receives quality_score 1.10, so the ISP quality score does not lie
in the range 0.0 to 1.0 (the stated weights sum to 1.10 and the code
applies no cap). -/
theorem c7_isp_quality_counterexample :
    (IspNc.ispValidate
      { business_name := "Spectrum (Charter Communications)",
        address := "Multiple locations across North Carolina",
        phone_number := "(855) 243-8892",
        website := "https://www.spectrum.com",
        business_description :=
          "Cable internet, TV, and phone services throughout North Carolina",
        service_type := "Cable", coverage := "Statewide" }).quality_score
      = 11 / 10 ∧
    ¬ (IspNc.ispValidate
      { business_name := "Spectrum (Charter Communications)",
        address := "Multiple locations across North Carolina",
        phone_number := "(855) 243-8892",
        website := "https://www.spectrum.com",
        business_description :=
          "Cable internet, TV, and phone services throughout North Carolina",
        service_type := "Cable", coverage := "Statewide" }).quality_score
      ≤ 1 := by
  have hp : IspNc.ispValidatePhone "(855) 243-8892" = true := by decide
  have hw : IspNc.ispValidateWebsite "https://www.spectrum.com" = true := by
    decide
  have key : (IspNc.ispValidate
      { business_name := "Spectrum (Charter Communications)",
        address := "Multiple locations across North Carolina",
        phone_number := "(855) 243-8892",
        website := "https://www.spectrum.com",
        business_description :=
          "Cable internet, TV, and phone services throughout North Carolina",
        service_type := "Cable", coverage := "Statewide" }).quality_score
      = 11 / 10 := by
    unfold IspNc.ispValidate
    simp only [hp, hw]
    simp
    rw [show (0.25 + 0.15 + (0.20 + 0.05) + (0.15 + 0.05) + 0.15 + 0.05
          + 0.05 : ℚ) = ((110 : ℕ) : ℚ) / 100 by norm_num,
        pyRound2_natCast_div]
    norm_num
  refine ⟨key, ?_⟩
  rw [key]
  norm_num

set_option maxHeartbeats 3200000 in
/-- C7 amended: the ISP quality score equals the sum of the stated weights
(rounding to two decimals is the identity on these sums) and lies in the
interval from 0 to 1.10; the upper end, reached exactly when every field is
present and the phone and website are well-formed, exceeds 1.0. -/
theorem c7_isp_quality_amended (b : BizRec) :
    (IspNc.ispValidate b).quality_score =
      (if !(b.business_name = "") then (0.25 : ℚ) else 0)
        + (if !(b.address = "") then 0.15 else 0)
        + (if !(b.phone_number = "") then
             0.20 + (if IspNc.ispValidatePhone b.phone_number then 0.05
                     else 0)
           else 0)
        + (if !(b.website = "") then
             0.15 + (if IspNc.ispValidateWebsite b.website then 0.05 else 0)
           else 0)
        + (if !(b.business_description = "") then 0.15 else 0)
        + (if !(b.service_type = "") then 0.05 else 0)
        + (if !(b.coverage = "") then 0.05 else 0) ∧
    0 ≤ (IspNc.ispValidate b).quality_score ∧
    (IspNc.ispValidate b).quality_score ≤ 11 / 10 := by
  unfold IspNc.ispValidate
  dsimp only
  split_ifs <;>
    refine ⟨?_, ?_, ?_⟩ <;> norm_num [IspNc.pyRound2, IspNc.roundHalfEven]

/-- C4 counterexample: the code keys on the stripped phone string, not on
its digits, and on the lower-stripped name, not a punctuation-stripped one:
two records whose phones have identical digit normalizations (and two whose
names differ only in punctuation) are both retained. -/
theorem c4_dedup_counterexample :
    Agent.specPhoneKey ({ phone_number := "555.123.4567" } : BizRec) =
        Agent.specPhoneKey ({ phone_number := "555-123-4567" } : BizRec) ∧
      Agent.deduplicate
          [{ business_name := "Alpha", phone_number := "555.123.4567" },
           { business_name := "Beta", phone_number := "555-123-4567" }] =
        [{ business_name := "Alpha", phone_number := "555.123.4567" },
         { business_name := "Beta", phone_number := "555-123-4567" }] ∧
      Agent.specNameKey ({ business_name := "Acme, Inc." } : BizRec) =
        Agent.specNameKey ({ business_name := "Acme Inc" } : BizRec) ∧
      Agent.deduplicate
          [{ business_name := "Acme, Inc." }, { business_name := "Acme Inc" }] =
        [{ business_name := "Acme, Inc." }, { business_name := "Acme Inc" }] := by
  decide


/-- C4 amended: the dedup key is the stripped phone string when nonempty
(no digit normalization), else the lower-cased stripped name (no
punctuation stripping or whitespace collapsing); the first-seen record is
retained on a key collision, records whose key is empty are dropped, the
output is an order-preserving sublist of the input, and two records with
identical nonempty stripped phone strings yield exactly the first. -/
theorem c4_dedup_amended :
    (∀ l : List BizRec, (Agent.deduplicate l).Sublist l) ∧
    (∀ r1 r2 : BizRec,
      pyStrip r1.phone_number = pyStrip r2.phone_number →
      ¬ (pyStrip r1.phone_number = "") →
      Agent.deduplicate [r1, r2] = [r1]) := by
  refine ⟨fun l => agent_dedupAux_sublist [] l, fun r1 r2 heq hne => ?_⟩
  have hne2 : ¬ (pyStrip r2.phone_number = "") := heq ▸ hne
  have hk1 : Agent.dedupKey r1 = pyStrip r1.phone_number := by
    unfold Agent.dedupKey
    simp [hne]
  have hk2 : Agent.dedupKey r2 = pyStrip r1.phone_number := by
    unfold Agent.dedupKey
    simp [hne2, heq]
  simp only [Agent.deduplicate, Agent.dedupAux, hk1, hk2]
  simp [hne]

/-- C4 witness for the amended statement: two records with the same
stripped phone collapse to the first. -/
theorem c4_dedup_amended_witness :
    (pyStrip (" 5551234567 " : String) = pyStrip ("5551234567" : String) ∧
      ¬ (pyStrip (" 5551234567 " : String) = "")) ∧
    Agent.deduplicate
        [{ business_name := "Alpha", phone_number := " 5551234567 " },
         { business_name := "Beta", phone_number := "5551234567" }] =
      [{ business_name := "Alpha", phone_number := " 5551234567 " }] :=
  ⟨⟨by decide, by decide⟩,
    c4_dedup_amended.2
      { business_name := "Alpha", phone_number := " 5551234567 " }
      { business_name := "Beta", phone_number := "5551234567" }
      (by decide) (by decide)⟩

/-- C5: fuzzy name deduplication never fails and maps the empty list to the
empty list; its output is an order-preserving sublist of the input (the
later record of a fuzzy match is discarded outright, no field merge); and
two records whose normalized names overlap in at least two words with an
overlap ratio above 0.6 relative to either name (the ratio written
multiplicatively: five times the overlap exceeds three times the word
count) collapse to exactly the first-seen record. -/
theorem c5_fuzzy_dedup :
    Scraper.scraperDedup [] = [] ∧
    (∀ l : List BizRec, (Scraper.scraperDedup l).Sublist l) ∧
    (∀ r1 r2 : BizRec,
      2 ≤ ((Scraper.wordSet (Scraper.normalizeName r2)) ∩
          (Scraper.wordSet (Scraper.normalizeName r1))).card →
      (3 * (Scraper.wordSet (Scraper.normalizeName r2)).card <
          5 * ((Scraper.wordSet (Scraper.normalizeName r2)) ∩
              (Scraper.wordSet (Scraper.normalizeName r1))).card ∨
        3 * (Scraper.wordSet (Scraper.normalizeName r1)).card <
          5 * ((Scraper.wordSet (Scraper.normalizeName r2)) ∩
              (Scraper.wordSet (Scraper.normalizeName r1))).card) →
      Scraper.scraperDedup [r1, r2] = [r1]) := by
  refine ⟨rfl, fun l => ?_, fun r1 r2 hov hr => ?_⟩
  · unfold Scraper.scraperDedup
    split
    · simp_all
    · exact scraper_dedupAux_sublist [] l
  · have hdup : Scraper.fuzzyDup
        (Scraper.wordSet (Scraper.normalizeName r2))
        (Scraper.wordSet (Scraper.normalizeName r1)) = true := by
      unfold Scraper.fuzzyDup
      simp only [Bool.and_eq_true, Bool.or_eq_true, decide_eq_true_eq]
      exact ⟨hov, hr⟩
    simp only [Scraper.scraperDedup, Scraper.scraperDedupAux, List.isEmpty,
      List.any_nil, List.any_cons, hdup]
    simp

/-- C5 witness: two four-word names sharing three words (ratio 0.75 against
either) collapse to the first. -/
theorem c5_fuzzy_dedup_witness :
    (2 ≤ ((Scraper.wordSet (Scraper.normalizeName
          { business_name := "Blue Ridge Fiber South" })) ∩
        (Scraper.wordSet (Scraper.normalizeName
          { business_name := "Blue Ridge Fiber North" }))).card ∧
      3 * (Scraper.wordSet (Scraper.normalizeName
          ({ business_name := "Blue Ridge Fiber South" } : BizRec))).card <
        5 * ((Scraper.wordSet (Scraper.normalizeName
            ({ business_name := "Blue Ridge Fiber South" } : BizRec))) ∩
          (Scraper.wordSet (Scraper.normalizeName
            ({ business_name := "Blue Ridge Fiber North" } : BizRec)))).card) ∧
    Scraper.scraperDedup
        [{ business_name := "Blue Ridge Fiber North" },
         { business_name := "Blue Ridge Fiber South" }] =
      [{ business_name := "Blue Ridge Fiber North" }] :=
  ⟨⟨by decide, by decide⟩,
    c5_fuzzy_dedup.2.2
      { business_name := "Blue Ridge Fiber North" }
      { business_name := "Blue Ridge Fiber South" }
      (by decide) (Or.inl (by decide))⟩

/-- C8 counterexample: on the record with name Acme Fiber Internet and
description fiber optic broadband provider, the general keyword classifier
does return Internet Service Provider with code 517311, but its confidence
is 10 on its 0..10 scale, not at least 50; and the classifier tool's
keyword registry has no internet keywords at all, returning 999999 with
confidence 20.  So no cited keyword classifier returns 517311 with
confidence at least 50. -/
theorem c8_scenario_counterexample :
    (Proc.procClassify
        { business_name := "Acme Fiber Internet",
          business_description := "fiber optic broadband provider" }
      ).naics_code = "517311" ∧
    (Proc.procClassify
        { business_name := "Acme Fiber Internet",
          business_description := "fiber optic broadband provider" }
      ).industry_confidence = 10 ∧
    ¬ (50 ≤ (Proc.procClassify
        { business_name := "Acme Fiber Internet",
          business_description := "fiber optic broadband provider" }
      ).industry_confidence) ∧
    (Tool.classifyWithKeywords none
        { company_name := "Acme Fiber Internet",
          business_description := "fiber optic broadband provider" }
      ).naics_code = "999999" ∧
    (Tool.classifyWithKeywords none
        { company_name := "Acme Fiber Internet",
          business_description := "fiber optic broadband provider" }
      ).confidence_score = 20 := by
  decide

/-- C8 amended: for that input the general keyword classifier resolves the
industry to Internet Service Provider (category Technology) with code
517311 and confidence 10, the maximum of its 0..10 scale; the ISP-specific
classifier of the ISP pipeline returns 517311 with confidence 60, which is
at least 50; the classifier tool's registry has no internet keywords and
falls back to 999999 with confidence 20. -/
theorem c8_scenario_amended :
    Proc.procClassify
        { business_name := "Acme Fiber Internet",
          business_description := "fiber optic broadband provider" } =
      { industry_primary := "Internet Service Provider",
        naics_code := "517311", industry_confidence := 10,
        industry_category := "Technology",
        classification_method := "keyword_matching",
        industry_secondary := none } ∧
    (IspNc.ispClassify
        { business_name := "Acme Fiber Internet",
          business_description := "fiber optic broadband provider" }
      ).naics_code = "517311" ∧
    (IspNc.ispClassify
        { business_name := "Acme Fiber Internet",
          business_description := "fiber optic broadband provider" }
      ).confidence_score = 60 ∧
    50 ≤ (IspNc.ispClassify
        { business_name := "Acme Fiber Internet",
          business_description := "fiber optic broadband provider" }
      ).confidence_score ∧
    (Tool.classifyWithKeywords none
        { company_name := "Acme Fiber Internet",
          business_description := "fiber optic broadband provider" }
      ).naics_code = "999999" := by
  decide

namespace Tool

theorem scoreOf_nil (c : String) : scoreOf [] c = 0 := rfl

theorem scoreOf_cons (q : String × Nat) (m : List (String × Nat))
    (c : String) :
    scoreOf (q :: m) c = if q.1 = c then q.2 else scoreOf m c := by
  by_cases h : q.1 = c <;> simp [scoreOf, List.find?, h]

theorem scoreOf_append_single (m : List (String × Nat)) (code : String)
    (s : Nat) (c : String)
    (h : m.any (fun p => p.1 = code) = false) :
    scoreOf (m ++ [(code, s)]) c =
      if c = code then scoreOf m c + s else scoreOf m c := by
  induction m with
  | nil =>
    by_cases hc : c = code
    · subst hc
      simp [scoreOf, List.find?]
    · have hcc : ¬ code = c := fun hh => hc hh.symm
      simp [scoreOf, List.find?, hc, hcc]
  | cons q m ih =>
    simp only [List.any_cons, Bool.or_eq_false_iff] at h
    obtain ⟨hq, hm⟩ := h
    rw [List.cons_append, scoreOf_cons, scoreOf_cons, ih hm]
    by_cases hqc : q.1 = c
    · have hcc : ¬ c = code := by
        intro hcceq
        rw [hcceq] at hqc
        simp [hqc] at hq
      simp [hqc, hcc]
    · simp [hqc]

theorem scoreOf_map_update_ne (m : List (String × Nat)) (code : String)
    (s : Nat) (c : String) (hc : ¬ c = code) :
    scoreOf (m.map (fun p => if p.1 = code then (p.1, p.2 + s) else p)) c =
      scoreOf m c := by
  have hcc : ¬ code = c := fun hh => hc hh.symm
  induction m with
  | nil => rfl
  | cons q m ih =>
    rw [List.map_cons, scoreOf_cons]
    by_cases hq : q.1 = code
    · have hqc : ¬ q.1 = c := by
        rw [hq]
        exact hcc
      simp only [hq, if_true]
      rw [scoreOf_cons]
      simp [hqc, hcc, ih]
    · simp only [hq, if_false]
      rw [scoreOf_cons, ih]

theorem scoreOf_map_update_eq (m : List (String × Nat)) (code : String)
    (s : Nat) (h : m.any (fun p => p.1 = code) = true) :
    scoreOf (m.map (fun p => if p.1 = code then (p.1, p.2 + s) else p))
        code = scoreOf m code + s := by
  induction m with
  | nil => simp at h
  | cons q m ih =>
    rw [List.map_cons, scoreOf_cons]
    by_cases hq : q.1 = code
    · simp only [hq, if_true]
      rw [scoreOf_cons]
      simp [hq]
    · simp only [hq, if_false]
      rw [scoreOf_cons]
      simp only [hq, if_false]
      simp only [List.any_cons, Bool.or_eq_true, decide_eq_true_eq] at h
      rcases h with h | h
      · exact absurd h hq
      · rw [ih h]

theorem scoreOf_addScore (m : List (String × Nat)) (code : String) (s : Nat)
    (c : String) :
    scoreOf (addScore m code s) c =
      if c = code then scoreOf m c + s else scoreOf m c := by
  unfold addScore
  by_cases hany : (m.any fun p => p.1 = code) = true
  · rw [if_pos hany]
    by_cases hc : c = code
    · subst hc
      simp [scoreOf_map_update_eq m c s hany]
    · simp [scoreOf_map_update_ne m code s c hc, hc]
  · rw [if_neg hany]
    exact scoreOf_append_single m code s c (Bool.eq_false_iff.mpr hany)

end Tool

namespace Tool

theorem codeTotal_cons (text : String) (p : String × String)
    (l : List (String × String)) (c : String) :
    codeTotal text (p :: l) c =
      (if p.2 = c then kwScore text p.1 else 0) + codeTotal text l c := by
  unfold codeTotal
  rw [List.filter_cons]
  by_cases h : p.2 = c <;> simp [h]

theorem scoreOf_fold (text : String) (l : List (String × String))
    (m : List (String × Nat)) (c : String) :
    scoreOf (l.foldl (fun m p =>
        let s := kwScore text p.1
        if s > 0 then addScore m p.2 s else m) m) c =
      scoreOf m c + codeTotal text l c := by
  induction l generalizing m with
  | nil => simp [codeTotal]
  | cons p l ih =>
    rw [List.foldl_cons, ih, codeTotal_cons]
    by_cases hs : kwScore text p.1 > 0
    · simp only [hs, if_true]
      rw [scoreOf_addScore]
      by_cases hc : c = p.2
      · subst hc
        simp
        omega
      · have : ¬ p.2 = c := fun hh => hc hh.symm
        simp [hc, this]
    · simp only [hs, if_false]
      have : kwScore text p.1 = 0 := by omega
      by_cases hc : p.2 = c <;> simp [hc, this]

theorem addScore_keys (m : List (String × Nat)) (code : String) (s : Nat) :
    (addScore m code s).map Prod.fst =
      if (m.any fun p => p.1 = code) = true then m.map Prod.fst
      else m.map Prod.fst ++ [code] := by
  unfold addScore
  by_cases h : (m.any fun p => p.1 = code) = true
  · rw [if_pos h, if_pos h, List.map_map]
    congr 1
    funext p
    by_cases hp : p.1 = code <;> simp [hp]
  · rw [if_neg h, if_neg h]
    simp

theorem addScore_keys_nodup (m : List (String × Nat)) (code : String)
    (s : Nat) (h : ((m.map Prod.fst).Nodup)) :
    ((addScore m code s).map Prod.fst).Nodup := by
  rw [addScore_keys]
  by_cases hany : (m.any fun p => p.1 = code) = true
  · rw [if_pos hany]
    exact h
  · rw [if_neg hany]
    have hnm : code ∉ m.map Prod.fst := by
      intro hmem
      apply hany
      rw [List.any_eq_true]
      obtain ⟨p, hp, hpc⟩ := List.mem_map.mp hmem
      exact ⟨p, hp, by simp [hpc]⟩
    rw [List.nodup_append]
    exact ⟨h, List.nodup_singleton code, by simp [List.disjoint_singleton, hnm]⟩

theorem fold_keys_nodup (text : String) (l : List (String × String))
    (m : List (String × Nat)) (h : (m.map Prod.fst).Nodup) :
    ((l.foldl (fun m p =>
        let s := kwScore text p.1
        if s > 0 then addScore m p.2 s else m) m).map Prod.fst).Nodup := by
  induction l generalizing m with
  | nil => exact h
  | cons p l ih =>
    rw [List.foldl_cons]
    by_cases hs : kwScore text p.1 > 0
    · simp only [hs, if_true]
      exact ih _ (addScore_keys_nodup m p.2 _ h)
    · simp only [hs, if_false]
      exact ih _ h

theorem scoreOf_of_mem (m : List (String × Nat))
    (h : (m.map Prod.fst).Nodup) (q : String × Nat) (hq : q ∈ m) :
    scoreOf m q.1 = q.2 := by
  induction m with
  | nil => simp at hq
  | cons p m ih =>
    rw [List.map_cons, List.nodup_cons] at h
    rw [scoreOf_cons]
    rcases List.mem_cons.mp hq with rfl | hq
    · simp
    · have : ¬ p.1 = q.1 := by
        intro hpq
        exact h.1 (hpq ▸ List.mem_map.mpr ⟨q, hq, rfl⟩)
      rw [if_neg this]
      exact ih h.2 hq

theorem addScore_pos (m : List (String × Nat)) (code : String) (s : Nat)
    (hm : ∀ q ∈ m, 0 < q.2) (hs : 0 < s) :
    ∀ q ∈ addScore m code s, 0 < q.2 := by
  intro q hq
  unfold addScore at hq
  split at hq
  case isTrue hany =>
    obtain ⟨p, hp, hpq⟩ := List.mem_map.mp hq
    rw [← hpq]
    have := hm p hp
    by_cases hpc : p.1 = code
    · simp only [hpc, if_true]
      omega
    · simp only [hpc, if_false]
      exact this
  case isFalse hany =>
    rcases List.mem_append.mp hq with hq2 | hq2
    · exact hm q hq2
    · simp only [List.mem_singleton] at hq2
      subst hq2
      exact hs

theorem fold_pos (text : String) (l : List (String × String))
    (m : List (String × Nat)) (hm : ∀ q ∈ m, 0 < q.2) :
    ∀ q ∈ (l.foldl (fun m p =>
        let s := kwScore text p.1
        if s > 0 then addScore m p.2 s else m) m), 0 < q.2 := by
  induction l generalizing m with
  | nil => exact hm
  | cons p l ih =>
    rw [List.foldl_cons]
    by_cases hs : kwScore text p.1 > 0
    · simp only [hs, if_true]
      exact ih _ (addScore_pos m p.2 _ hm hs)
    · simp only [hs, if_false]
      exact ih _ hm

end Tool

namespace Tool

theorem maxFold_mem (x : String × Nat) (xs : List (String × Nat)) :
    (xs.foldl (fun best z => if z.2 > best.2 then z else best) x) ∈
      x :: xs := by
  induction xs generalizing x with
  | nil => simp
  | cons y ys ih =>
    rw [List.foldl_cons]
    have h := ih (if y.2 > x.2 then y else x)
    rcases List.mem_cons.mp h with h | h
    · rw [h]
      by_cases hy : y.2 > x.2 <;> simp [hy]
    · simp [h]

theorem maxFold_ge (x : String × Nat) (xs : List (String × Nat)) :
    ∀ y ∈ x :: xs, y.2 ≤
      (xs.foldl (fun best z => if z.2 > best.2 then z else best) x).2 := by
  induction xs generalizing x with
  | nil => simp
  | cons z zs ih =>
    intro y hy
    rw [List.foldl_cons]
    have hstep : x.2 ≤ (if z.2 > x.2 then z else x).2 ∧
        z.2 ≤ (if z.2 > x.2 then z else x).2 := by
      by_cases hz : z.2 > x.2 <;> simp [hz] <;> omega
    have ihz := ih (if z.2 > x.2 then z else x)
    rcases List.mem_cons.mp hy with rfl | hy
    · exact le_trans hstep.1 (ihz _ (List.mem_cons_self _ _))
    · rcases List.mem_cons.mp hy with rfl | hy
      · exact le_trans hstep.2 (ihz _ (List.mem_cons_self _ _))
      · exact ihz y (List.mem_cons_of_mem _ hy)

theorem fold_nil_of_all_zero (text : String) (l : List (String × String))
    (h : ∀ p ∈ l, kwScore text p.1 = 0) :
    (l.foldl (fun m p =>
        let s := kwScore text p.1
        if s > 0 then addScore m p.2 s else m) []) = [] := by
  induction l with
  | nil => rfl
  | cons p l ih =>
    rw [List.foldl_cons]
    have hp := h p (List.mem_cons_self _ _)
    simp only [hp]
    exact ih (fun q hq => h q (List.mem_cons_of_mem _ hq))

theorem fold_ne_nil_of_ne (text : String) (l : List (String × String))
    (m : List (String × Nat)) (hm : m ≠ []) :
    (l.foldl (fun m p =>
        let s := kwScore text p.1
        if s > 0 then addScore m p.2 s else m) m) ≠ [] := by
  induction l generalizing m with
  | nil => exact hm
  | cons p l ih =>
    rw [List.foldl_cons]
    apply ih
    by_cases hs : kwScore text p.1 > 0
    · simp only [hs, if_true]
      unfold addScore
      split
      · intro hcontra
        rw [List.map_eq_nil_iff] at hcontra
        subst hcontra
        simp_all
      · intro hcontra
        simp at hcontra
    · simpa [hs] using hm

theorem fold_ne_nil_of_pos (text : String) (l : List (String × String))
    (p0 : String × String) (hp0 : p0 ∈ l) (hpos : 0 < kwScore text p0.1) :
    (l.foldl (fun m p =>
        let s := kwScore text p.1
        if s > 0 then addScore m p.2 s else m) []) ≠ [] := by
  induction l with
  | nil => simp at hp0
  | cons p l ih =>
    rw [List.foldl_cons]
    rcases List.mem_cons.mp hp0 with rfl | hmem
    · simp only [hpos, if_true]
      apply fold_ne_nil_of_ne
      unfold addScore
      simp
    · by_cases hs : kwScore text p.1 > 0
      · simp only [hs, if_true]
        apply fold_ne_nil_of_ne
        unfold addScore
        simp
      · simp only [hs, if_false]
        exact ih hmem

end Tool

/-- C1: keyword classification computes per-NAICS-code totals (10 points
for a keyword occurring in the lower-cased concatenated text plus 3 points
per constituent word occurring on its own), selects a code with the highest
total, and returns success with confidence min (total * 5) 85, source
keyword; when no keyword scores above 0 it returns 999999 with confidence
20 and the no-clear-indicators reasoning, source keyword. -/
theorem c1_keyword_scoring (b : Tool.BusinessInfo) :
    ((∀ p ∈ Tool.NAICS_MAPPINGS,
        Tool.kwScore (Tool.combinedText b) p.1 = 0) →
      Tool.classifyWithKeywords none b = Tool.noIndicatorResult) ∧
    ((∃ p ∈ Tool.NAICS_MAPPINGS,
        0 < Tool.kwScore (Tool.combinedText b) p.1) →
      ∃ code : String,
        0 < Tool.codeTotal (Tool.combinedText b) Tool.NAICS_MAPPINGS code ∧
        (∀ c : String,
          Tool.codeTotal (Tool.combinedText b) Tool.NAICS_MAPPINGS c ≤
            Tool.codeTotal (Tool.combinedText b) Tool.NAICS_MAPPINGS code) ∧
        Tool.classifyWithKeywords none b =
          { success := true, naics_code := code,
            industry_description :=
              Tool.lookupD Tool.NAICS_DESCRIPTIONS code "Unknown Industry",
            confidence_score := min
              ((Tool.codeTotal (Tool.combinedText b) Tool.NAICS_MAPPINGS
                  code : Int) * 5) 85,
            reasoning := "Keyword-based classification (score: " ++
              toString (Tool.codeTotal (Tool.combinedText b)
                Tool.NAICS_MAPPINGS code) ++ ")",
            source := "keyword", model := "keyword_matching" }) := by
  constructor
  · intro hall
    have hnil : Tool.keywordScores (Tool.combinedText b) = [] := by
      unfold Tool.keywordScores Tool.keywordScoresFrom
      exact Tool.fold_nil_of_all_zero _ _ hall
    unfold Tool.classifyWithKeywords
    dsimp only
    rw [hnil]
    rfl
  · rintro ⟨p0, hp0, hpos⟩
    have hne : Tool.keywordScores (Tool.combinedText b) ≠ [] := by
      unfold Tool.keywordScores Tool.keywordScoresFrom
      exact Tool.fold_ne_nil_of_pos _ _ p0 hp0 hpos
    obtain ⟨e, es, hcons⟩ : ∃ e es,
        Tool.keywordScores (Tool.combinedText b) = e :: es := by
      cases h : Tool.keywordScores (Tool.combinedText b) with
      | nil => exact absurd h hne
      | cons e es => exact ⟨e, es, rfl⟩
    have hnodup : ((Tool.keywordScores (Tool.combinedText b)).map
        Prod.fst).Nodup := by
      unfold Tool.keywordScores Tool.keywordScoresFrom
      exact Tool.fold_keys_nodup _ _ [] (by simp)
    have hposall : ∀ q ∈ Tool.keywordScores (Tool.combinedText b),
        0 < q.2 := by
      unfold Tool.keywordScores Tool.keywordScoresFrom
      exact Tool.fold_pos _ _ [] (by simp)
    have hscore : ∀ c, Tool.scoreOf
        (Tool.keywordScores (Tool.combinedText b)) c =
          Tool.codeTotal (Tool.combinedText b) Tool.NAICS_MAPPINGS c := by
      intro c
      unfold Tool.keywordScores Tool.keywordScoresFrom
      rw [Tool.scoreOf_fold]
      simp [Tool.scoreOf]
    have hmem := Tool.maxFold_mem e es
    have hge := Tool.maxFold_ge e es
    have hbestmem : (es.foldl
        (fun best z => if z.2 > best.2 then z else best) e) ∈
          Tool.keywordScores (Tool.combinedText b) := by
      rw [hcons]
      exact hmem
    have hbest_val : Tool.codeTotal (Tool.combinedText b)
        Tool.NAICS_MAPPINGS
        (es.foldl (fun best z => if z.2 > best.2 then z else best) e).1 =
        (es.foldl (fun best z => if z.2 > best.2 then z else best) e).2 := by
      rw [← hscore]
      exact Tool.scoreOf_of_mem _ hnodup _ hbestmem
    refine ⟨(es.foldl (fun best z => if z.2 > best.2 then z else best) e).1,
      ?_, ?_, ?_⟩
    · rw [hbest_val]
      exact hposall _ hbestmem
    · intro c
      rw [← hscore c, hbest_val]
      unfold Tool.scoreOf
      cases hfind : (Tool.keywordScores (Tool.combinedText b)).find?
          (fun q => q.1 = c) with
      | none => simp [hfind]
      | some q =>
        simp only [hfind]
        have hqmem : q ∈ Tool.keywordScores (Tool.combinedText b) :=
          List.mem_of_find?_eq_some hfind
        rw [hcons] at hqmem
        exact hge q hqmem
    · unfold Tool.classifyWithKeywords
      dsimp only
      rw [hcons]
      simp only [Tool.maxEntry]
      rw [hbest_val]

/-- C1 witness: a record whose text contains the keyword restaurant is
classified 722511 with total 13 and confidence 65. -/
theorem c1_keyword_scoring_witness :
    (∃ p ∈ Tool.NAICS_MAPPINGS,
      0 < Tool.kwScore
        (Tool.combinedText { company_name := "Joes Pizza Restaurant" }) p.1) ∧
    (∃ code : String,
      0 < Tool.codeTotal
          (Tool.combinedText { company_name := "Joes Pizza Restaurant" })
          Tool.NAICS_MAPPINGS code ∧
      (∀ c : String,
        Tool.codeTotal
            (Tool.combinedText { company_name := "Joes Pizza Restaurant" })
            Tool.NAICS_MAPPINGS c ≤
          Tool.codeTotal
            (Tool.combinedText { company_name := "Joes Pizza Restaurant" })
            Tool.NAICS_MAPPINGS code) ∧
      Tool.classifyWithKeywords none { company_name := "Joes Pizza Restaurant" } =
        { success := true, naics_code := code,
          industry_description :=
            Tool.lookupD Tool.NAICS_DESCRIPTIONS code "Unknown Industry",
          confidence_score := min
            ((Tool.codeTotal
                (Tool.combinedText { company_name := "Joes Pizza Restaurant" })
                Tool.NAICS_MAPPINGS code : Int) * 5) 85,
          reasoning := "Keyword-based classification (score: " ++
            toString (Tool.codeTotal
              (Tool.combinedText { company_name := "Joes Pizza Restaurant" })
              Tool.NAICS_MAPPINGS code) ++ ")",
          source := "keyword", model := "keyword_matching" }) :=
  ⟨⟨("restaurant", "722511"), by decide, by decide⟩,
    (c1_keyword_scoring { company_name := "Joes Pizza Restaurant" }).2
      ⟨("restaurant", "722511"), by decide, by decide⟩⟩

namespace Tool

theorem findSixAux_digits (prev : Option Char) (l : List Char)
    (t : String) (h : findSixAux prev l = some t) :
    matchesSixDigits t = true := by
  induction l generalizing prev with
  | nil => simp [findSixAux] at h
  | cons c cs ih =>
    unfold findSixAux at h
    split at h
    · rename_i hcond
      simp only [Option.some.injEq] at h
      subst h
      unfold sixHere at hcond
      simp only [Bool.and_eq_true, decide_eq_true_eq] at hcond
      unfold matchesSixDigits
      simp only [Bool.and_eq_true, decide_eq_true_eq]
      constructor
      · simp only [List.asString, String.toList]
        exact hcond.1.1.1
      · simp only [List.asString, String.toList]
        exact hcond.1.1.2
    · exact ih (some c) h

theorem validateNaics_six (s : String) :
    matchesSixDigits (validateNaics s) = true := by
  unfold validateNaics
  by_cases h : matchesSixDigits s = true
  · simp [h]
  · simp only [h, if_false, Bool.false_eq_true]
    cases hfind : findSix s with
    | none =>
      simp only [hfind]
      decide
    | some t =>
      simp only [hfind]
      exact findSixAux_digits none s.toList t hfind

theorem kw_source_keyword (b : BusinessInfo) :
    (classifyWithKeywords none b).source = "keyword" := by
  unfold classifyWithKeywords
  dsimp only
  cases maxEntry (keywordScores (combinedText b)) <;> rfl

end Tool

/-- C2: with an AI capability present, the AI result is returned exactly
when it reports success and confidence above 70 (the code's cap at 100
cannot alter this); the AI-path NAICS code is the validated code — kept
when already six digits, else a word-bounded six-digit substring extracted
by regex, else 999999 — and the validated code always consists of exactly
six digits; a failed AI call and an absent capability both fall through to
the keyword path. -/
theorem c2_ai_acceptance :
    (∀ (raw : Tool.AIRaw) (b : Tool.BusinessInfo),
      Tool.classify none none (some (Except.ok raw)) b =
        (if raw.success = true ∧ 70 < raw.confidence_score.getD 0 then
          Tool.classifyWithAI raw
        else Tool.classifyWithKeywords none b)) ∧
    (∀ raw : Tool.AIRaw, (Tool.classifyWithAI raw).naics_code =
      Tool.validateNaics (raw.naics_code.getD "000000")) ∧
    (∀ s : String, Tool.matchesSixDigits (Tool.validateNaics s) = true) ∧
    (∀ (e : String) (b : Tool.BusinessInfo),
      Tool.classify none none (some (Except.error e)) b =
        Tool.classifyWithKeywords none b) ∧
    (∀ b : Tool.BusinessInfo,
      Tool.classify none none none b = Tool.classifyWithKeywords none b) := by
  refine ⟨fun raw b => ?_, fun raw => rfl, Tool.validateNaics_six,
    fun e b => rfl, fun b => rfl⟩
  have hconf : (Tool.classifyWithAI raw).confidence_score =
      min (raw.confidence_score.getD 0) 100 := rfl
  have hsucc : (Tool.classifyWithAI raw).success = raw.success := rfl
  unfold Tool.classify
  dsimp only
  split_ifs with hA hB hB
  · rfl
  · exfalso
    rw [Bool.and_eq_true, hsucc, hconf] at hA
    apply hB
    refine ⟨hA.1, ?_⟩
    have := hA.2
    simp only [decide_eq_true_eq, gt_iff_lt] at this
    omega
  · exfalso
    rw [Bool.not_eq_true, Bool.and_eq_false_iff] at hA
    rcases hA with hA | hA
    · rw [hsucc] at hA
      rw [hA] at hB
      simp at hB
    · rw [hconf] at hA
      simp only [decide_eq_false_iff_not, gt_iff_lt, not_lt] at hA
      have := hB.2
      omega
  · rfl

/-- C3: classify is total; an exception inside its try block yields the
fixed error result with code 999999, confidence 0 and source error (and the
keyword path's own exception handler likewise); every returned result whose
source is error carries confidence 0, code 999999 and success false.  The
hypothesis reflects the LLM collaborator's contract: the repository's
client only reports source local, openai or anthropic on success, never
error (src/src/utils/local_llm_client.py). -/
theorem c3_error_conversion (exc kwExc : Option String)
    (ai : Option (Except String Tool.AIRaw)) (b : Tool.BusinessInfo)
    (hai : ∀ raw : Tool.AIRaw, ai = some (Except.ok raw) →
      raw.success = true → ¬ raw.source.getD "ai" = "error") :
    (∀ e : String, exc = some e →
      Tool.classify exc kwExc ai b = Tool.classifyErrorResult e ∧
      (Tool.classifyErrorResult e).confidence_score = 0 ∧
      (Tool.classifyErrorResult e).naics_code = "999999" ∧
      (Tool.classifyErrorResult e).source = "error") ∧
    ((Tool.classify exc kwExc ai b).source = "error" →
      (Tool.classify exc kwExc ai b).confidence_score = 0 ∧
      (Tool.classify exc kwExc ai b).naics_code = "999999" ∧
      (Tool.classify exc kwExc ai b).success = false) := by
  have kwcase : ∀ kE : Option String,
      (Tool.classifyWithKeywords kE b).source = "error" →
      (Tool.classifyWithKeywords kE b).confidence_score = 0 ∧
      (Tool.classifyWithKeywords kE b).naics_code = "999999" ∧
      (Tool.classifyWithKeywords kE b).success = false := by
    intro kE hsrc
    cases kE with
    | some e => exact ⟨rfl, rfl, rfl⟩
    | none =>
      exact absurd ((Tool.kw_source_keyword b).symm.trans hsrc) (by decide)
  cases exc with
  | some e =>
    constructor
    · intro e2 he
      cases he
      exact ⟨rfl, rfl, rfl, rfl⟩
    · intro hsrc
      exact ⟨rfl, rfl, rfl⟩
  | none =>
    constructor
    · intro e he
      cases he
    · cases ai with
      | none => exact kwcase kwExc
      | some out =>
        cases out with
        | error e => exact kwcase kwExc
        | ok raw =>
          by_cases hacc : ((Tool.classifyWithAI raw).success &&
              decide ((Tool.classifyWithAI raw).confidence_score > 70)) = true
          · have hred : Tool.classify none kwExc (some (Except.ok raw)) b =
                Tool.classifyWithAI raw := by
              unfold Tool.classify
              dsimp only
              rw [if_pos hacc]
            rw [hred]
            intro hsrc
            exfalso
            have hsuc : raw.success = true := by
              rw [Bool.and_eq_true] at hacc
              exact hacc.1
            exact hai raw rfl hsuc hsrc
          · have hred : Tool.classify none kwExc (some (Except.ok raw)) b =
                Tool.classifyWithKeywords kwExc b := by
              unfold Tool.classify
              dsimp only
              rw [if_neg hacc]
            rw [hred]
            exact kwcase kwExc

/-- C3 witness: an internal exception with no AI capability is converted to
the error result, whose confidence is 0. -/
theorem c3_error_conversion_witness :
    ((∀ raw : Tool.AIRaw,
        (none : Option (Except String Tool.AIRaw)) = some (Except.ok raw) →
        raw.success = true → ¬ raw.source.getD "ai" = "error") ∧
      (some "boom" : Option String) = some "boom") ∧
    (Tool.classify (some "boom") none none {} = Tool.classifyErrorResult "boom" ∧
      (Tool.classifyErrorResult "boom").confidence_score = 0 ∧
      (Tool.classifyErrorResult "boom").naics_code = "999999" ∧
      (Tool.classifyErrorResult "boom").source = "error") :=
  ⟨⟨fun raw h => Option.noConfusion h, rfl⟩,
    (c3_error_conversion (some "boom") none none {}
      (fun raw h => Option.noConfusion h)).1 "boom" rfl⟩
